import Mathlib

/-!
Verification development for the U-Health frontend session/authorization gate.

The development shallowly embeds the two core components of the repository:

* the navigation guard of src/router/index.ts (the route table, the
  token-presence check isTokenValid, and the global beforeEach guard), and
* the HTTP client wrapper of api.ts (the request interceptor that attaches
  the bearer token and the response interceptor that reacts to 401), in both
  observed variants: the canonical opaque-token variant (the documented
  api.ts embedded alongside App.vue) and the JWT-decoding variant
  (the api.ts that parses a base64 payload and an exp claim).

JavaScript values are embedded explicitly: localStorage.getItem yields
Option String (none for an absent key), string truthiness treats the empty
string as falsy, and route meta fields are Option Bool (none for an absent
field, falsy under JavaScript truthiness).
-/

/-- Truthiness of a JavaScript string-or-null value: null and the empty
string are falsy, every other string is truthy. -/
def strTruthy (v : Option String) : Bool :=
  match v with
  | none => false
  | some s => !(s == "")

/-- Truthiness of an optional boolean route-meta field: an absent field
(undefined) is falsy. -/
def metaTruthy (b : Option Bool) : Bool :=
  b.getD false

/-- Route metadata record, mirroring the meta objects of the route table in
src/router/index.ts. A field that a route does not declare is none. -/
structure RouteMeta where
  requiresAuth : Option Bool
  showNav : Option Bool
  showProfile : Option Bool
deriving DecidableEq, Repr

/-- A route descriptor of the route table: path pattern, route name, the
name of the target component, and the metadata record. -/
structure RouteRecord where
  path : String
  name : String
  component : String
  meta : RouteMeta
deriving DecidableEq, Repr

/-- Route for the path "/" (HomePage). -/
def homeRoute : RouteRecord :=
  ⟨"/", "Home", "HomePage", ⟨none, some true, some false⟩⟩

/-- Route for the path "/login" (LoginPage). -/
def loginRoute : RouteRecord :=
  ⟨"/login", "Login", "LoginPage", ⟨none, some false, none⟩⟩

/-- Route for the path "/register" (RegisterUserPage). -/
def registerRoute : RouteRecord :=
  ⟨"/register", "Register", "RegisterUserPage", ⟨none, some false, none⟩⟩

/-- Route for the path "/password-reset/:token" (ResetPasswordPage). -/
def resetPasswordRoute : RouteRecord :=
  ⟨"/password-reset/:token", "ResetPassword", "ResetPasswordPage", ⟨some false, some false, none⟩⟩

/-- Route for the path "/dashboard" (DashboardPage). -/
def dashboardRoute : RouteRecord :=
  ⟨"/dashboard", "Dashboard", "DashboardPage", ⟨some true, some true, some true⟩⟩

/-- Route for the path "/bookings" (BookingsPage). -/
def bookingsRoute : RouteRecord :=
  ⟨"/bookings", "Bookings", "BookingsPage", ⟨some true, some true, some true⟩⟩

/-- Route for the path "/profile" (ProfilePage). -/
def profileRoute : RouteRecord :=
  ⟨"/profile", "Profile", "ProfilePage", ⟨some true, some true, some false⟩⟩

/-- Route for the path "/history" (TreatmentHistory). -/
def historyRoute : RouteRecord :=
  ⟨"/history", "History", "TreatmentHistory", ⟨some true, some true, some true⟩⟩

/-- Route for the path "/history/:id" (TreatmentDetail). -/
def treatmentDetailRoute : RouteRecord :=
  ⟨"/history/:id", "TreatmentDetail", "TreatmentDetail", ⟨some true, some true, some true⟩⟩

/-- The route configuration array of src/router/index.ts, in source order. -/
def routes : List RouteRecord :=
  [homeRoute, loginRoute, registerRoute, resetPasswordRoute, dashboardRoute,
   bookingsRoute, profileRoute, historyRoute, treatmentDetailRoute]

/-- Lookup of a route record by its path, as the router resolves a static
destination path against the route table. -/
def findRoute (path : String) : Option RouteRecord :=
  routes.find? (fun r => r.path == path)

/-- isTokenValid of src/router/index.ts: reads the token slot of
localStorage and returns the double-negated truthiness of the result. The
store argument is the value under the key token (none when absent). -/
def isTokenValid (store : Option String) : Bool :=
  strTruthy store

/-- Decision of the navigation guard: either call through to the requested
route, or substitute the given target path. -/
inductive GuardDecision where
  | allow
  | redirect (target : String)
deriving DecidableEq, Repr

/-- The global beforeEach guard of src/router/index.ts. Input: the
destination route record (its path and meta) and the token store; output:
the guard decision together with the token store after the guard ran
(rule 1 removes the token key before redirecting to the login route). -/
def beforeEach (dest : RouteRecord) (store : Option String) :
    GuardDecision × Option String :=
  if metaTruthy dest.meta.requiresAuth && !(isTokenValid store) then
    (GuardDecision.redirect "/login", none)
  else if (dest.path == "/login" || dest.path == "/register") && isTokenValid store then
    (GuardDecision.redirect "/dashboard", store)
  else
    (GuardDecision.allow, store)

/-- Client-side global state seen by the HTTP client wrapper: the token slot
of localStorage and the current location pathname. -/
structure ClientState where
  token : Option String
  location : String
deriving DecidableEq, Repr

/-- Outcome of the request interceptor for one outgoing call: the request is
dispatched (with the final value of the Authorization header), or cancelled
via a thrown axios.Cancel after cleanup, or aborted by an uncaught
exception thrown while decoding the token. -/
inductive ReqOutcome where
  | dispatched (auth : Option String)
  | cancelled (reason : String)
  | thrown
deriving DecidableEq, Repr

/-- The canonical request interceptor (the documented api.ts embedded
alongside App.vue): read the token from storage and, when truthy, set the
Authorization header to the bearer form of the stored value; the request is
dispatched in every case and the state is untouched. -/
def canonicalRequestInterceptor (s : ClientState) : ReqOutcome × ClientState :=
  match s.token with
  | none => (ReqOutcome.dispatched none, s)
  | some token =>
    if token == "" then
      (ReqOutcome.dispatched none, s)
    else
      (ReqOutcome.dispatched (some ("Bearer " ++ token)), s)

/-- Result of the response interceptor rejection handler: how many full
navigations it issued, whether the error was propagated to the caller
(the promise rejected), and the client state afterwards. -/
structure RespResult where
  navigations : Nat
  rejected : Bool
  state : ClientState
deriving DecidableEq, Repr

/-- The canonical response interceptor rejection handler (the documented
api.ts embedded alongside App.vue): on status 401 it removes the token and,
only when the current pathname is not the login path, assigns the login
path to window.location (one full navigation); in every case the error is
re-rejected to the caller. The status is none when no response was
received (transport failure). -/
def canonicalResponseOnError (status : Option Nat) (s : ClientState) :
    RespResult :=
  if status == some 401 then
    if s.location == "/login" then
      ⟨0, true, ⟨none, s.location⟩⟩
    else
      ⟨1, true, ⟨none, "/login"⟩⟩
  else
    ⟨0, true, s⟩

/-- Value of a base64 alphabet character, as used by window.atob. -/
def b64CharVal (c : Char) : Option Nat :=
  if 65 ≤ c.toNat ∧ c.toNat ≤ 90 then some (c.toNat - 65)
  else if 97 ≤ c.toNat ∧ c.toNat ≤ 122 then some (c.toNat - 97 + 26)
  else if 48 ≤ c.toNat ∧ c.toNat ≤ 57 then some (c.toNat - 48 + 52)
  else if c = '+' then some 62
  else if c = '/' then some 63
  else none

/-- ASCII whitespace, removed by the forgiving base64 decode of atob. -/
def isAsciiWhitespace (c : Char) : Bool :=
  c == ' ' || c == '\t' || c == '\n' || c == '\r' || c == Char.ofNat 12

/-- Strip one or two trailing padding characters when the length is a
multiple of four, per the forgiving base64 decode. -/
def stripB64Padding (cs : List Char) : List Char :=
  if cs.length % 4 = 0 then
    match cs.reverse with
    | '=' :: '=' :: rest => rest.reverse
    | '=' :: rest => rest.reverse
    | _ => cs
  else cs

/-- Decode one group of up to four base64 values into bytes; leftover bits
of a trailing partial group are discarded. -/
def b64Group (vals : List Nat) : List Nat :=
  match vals with
  | [a, b, c, d] => [a * 4 + b / 16, b % 16 * 16 + c / 4, c % 4 * 64 + d]
  | [a, b, c] => [a * 4 + b / 16, b % 16 * 16 + c / 4]
  | [a, b] => [a * 4 + b / 16]
  | _ => []

/-- Decode a list of base64 values, four at a time. -/
def b64DecodeVals (vals : List Nat) : List Nat :=
  match vals with
  | a :: b :: c :: d :: rest => b64Group [a, b, c, d] ++ b64DecodeVals rest
  | rest => b64Group rest

/-- window.atob as the forgiving base64 decoder: remove ASCII whitespace,
strip padding, fail when the remaining length is 1 mod 4 or a character is
outside the base64 alphabet, else decode to bytes; none models the thrown
InvalidCharacterError. -/
def atob (cs : List Char) : Option (List Nat) :=
  let data := stripB64Padding (cs.filter (fun c => !isAsciiWhitespace c))
  if data.length % 4 = 1 then none
  else (data.mapM b64CharVal).map b64DecodeVals

/-- JavaScript String.split with separator "." on the character list of the
string: every occurrence of the dot separates two (possibly empty)
fragments. -/
def splitDot (cs : List Char) : List (List Char) :=
  match cs with
  | [] => [[]]
  | c :: rest =>
    match splitDot rest, c == '.' with
    | r, true => [] :: r
    | [], false => [[c]]
    | h :: t, false => (c :: h) :: t

/-- Result of JSON.parse on the decoded payload followed by the read of the
exp property: the parse throws, or the parsed object has no numeric exp
property (so exp times 1000 is NaN and the expiry comparison is false), or
it has the numeric value n. The parser itself is left abstract because no
claim depends on a successful parse. -/
inductive JsonExpOutcome where
  | thrown
  | missing
  | value (n : Int)

/-- The request interceptor of src/api.ts (the JWT-decoding variant): read
the token and, when truthy, split it on dots, take the second fragment as
the payload (cancelling the call, clearing the token and redirecting when
it is absent or empty), decode it with atob and JSON.parse (an uncaught
exception when either fails), cancel with cleanup and redirect when the
exp claim lies in the past, and otherwise attach the bearer header and
dispatch. jsonParse stands for JSON.parse plus the exp property read, and
now for Date.now(). -/
def jwtRequestInterceptor (jsonParse : List Nat → JsonExpOutcome) (now : Int)
    (s : ClientState) : ReqOutcome × ClientState :=
  match s.token with
  | none => (ReqOutcome.dispatched none, s)
  | some token =>
    if token == "" then
      (ReqOutcome.dispatched none, s)
    else
      let parts := splitDot token.toList
      let base64Payload := if parts.length > 1 then parts.get? 1 else none
      match base64Payload with
      | none => (ReqOutcome.cancelled "Token invalid", ⟨none, "/login"⟩)
      | some p =>
        if p.isEmpty then
          (ReqOutcome.cancelled "Token invalid", ⟨none, "/login"⟩)
        else
          match atob p with
          | none => (ReqOutcome.thrown, s)
          | some bytes =>
            match jsonParse bytes with
            | JsonExpOutcome.thrown => (ReqOutcome.thrown, s)
            | JsonExpOutcome.missing =>
              (ReqOutcome.dispatched (some ("Bearer " ++ token)), s)
            | JsonExpOutcome.value n =>
              if now > n * 1000 then
                (ReqOutcome.cancelled "Token expired", ⟨none, "/login"⟩)
              else
                (ReqOutcome.dispatched (some ("Bearer " ++ token)), s)

/-- Case analysis of the guard: either rule 1 fires (requiresAuth truthy and
no token: redirect to the login path and clear the token), or rule 2 fires
(token present: redirect to the dashboard, store untouched), or the guard
allows the transition with the store untouched. -/
theorem beforeEach_cases (dest : RouteRecord) (store : Option String) :
    (metaTruthy dest.meta.requiresAuth = true ∧ isTokenValid store = false ∧
      beforeEach dest store = (GuardDecision.redirect "/login", none)) ∨
    (isTokenValid store = true ∧
      beforeEach dest store = (GuardDecision.redirect "/dashboard", store)) ∨
    beforeEach dest store = (GuardDecision.allow, store) := by
  unfold beforeEach
  split
  · next h =>
    rcases Bool.and_eq_true _ _ |>.mp h with ⟨h1, h2⟩
    exact Or.inl ⟨h1, by simpa using h2, rfl⟩
  · split
    · next _ h =>
      exact Or.inr (Or.inl ⟨(Bool.and_eq_true _ _ |>.mp h).2, rfl⟩)
    · exact Or.inr (Or.inr rfl)

/-- C1: for every destination route whose metadata declares requiresAuth =
true, with an empty token store the guard removes the token key (the
resulting store is empty) and the transition results in the login path
instead of the requested destination; the decision carries only the
literal login path, so the requested destination is not preserved as a
return-target. -/
theorem guard_requiresAuth_no_token (dest : RouteRecord)
    (h : dest.meta.requiresAuth = some true) :
    beforeEach dest none = (GuardDecision.redirect "/login", none) := by
  simp [beforeEach, isTokenValid, strTruthy, metaTruthy, h]

/-- Witness for C1 at the profile route. -/
theorem guard_requiresAuth_no_token_witness :
    profileRoute.meta.requiresAuth = some true ∧
    beforeEach profileRoute none = (GuardDecision.redirect "/login", none) :=
  ⟨by decide, guard_requiresAuth_no_token profileRoute (by decide)⟩

/-- C4: for every destination whose path is the login or the register path,
with a non-empty token in the store the guard redirects to the dashboard
path and leaves the token store unchanged. -/
theorem guard_authpages_redirect_dashboard (dest : RouteRecord) (t : String)
    (hpath : dest.path = "/login" ∨ dest.path = "/register") (ht : t ≠ "") :
    beforeEach dest (some t) = (GuardDecision.redirect "/dashboard", some t) := by
  have hv : isTokenValid (some t) = true := by
    simp [isTokenValid, strTruthy, ht]
  rcases hpath with hp | hp <;> simp [beforeEach, hv, hp]

/-- Witness for C4 at the login route with the token of scenario B. -/
theorem guard_authpages_redirect_dashboard_witness :
    beforeEach loginRoute (some "abc123") =
      (GuardDecision.redirect "/dashboard", some "abc123") :=
  guard_authpages_redirect_dashboard loginRoute "abc123" (Or.inl rfl) (by decide)

/-- C5: for every destination whose requiresAuth metadata is falsy (false or
absent) and every token state not matching the login-or-register-with-token
rule, the guard allows the transition unmodified and leaves the store
unchanged; in particular, with an empty store, navigating to the root route
is allowed unchanged. -/
theorem guard_public_allow :
    (∀ (dest : RouteRecord) (store : Option String),
      metaTruthy dest.meta.requiresAuth = false →
      ¬ ((dest.path = "/login" ∨ dest.path = "/register") ∧
          isTokenValid store = true) →
      beforeEach dest store = (GuardDecision.allow, store)) ∧
    beforeEach homeRoute none = (GuardDecision.allow, none) := by
  constructor
  · intro dest store hauth hrule2
    cases hv : isTokenValid store with
    | false => simp [beforeEach, hauth, hv]
    | true =>
      have hp : ¬ (dest.path = "/login" ∨ dest.path = "/register") :=
        fun hp => hrule2 ⟨hp, hv⟩
      push_neg at hp
      simp [beforeEach, hauth, hv, hp.1, hp.2]
  · decide

/-- Witness for C5: scenario D, empty store and the root destination. -/
theorem guard_public_allow_witness :
    beforeEach homeRoute none = (GuardDecision.allow, none) :=
  guard_public_allow.1 homeRoute none (by decide) (by decide)

/-- C6: for every destination route and every token state, the guard either
allows the requested route or substitutes exactly one alternate route, the
login path or the dashboard path; and whenever it substitutes a route,
re-evaluating the guard on the substituted route's record under the token
state left by the first decision yields ALLOW, so no second redirect is
ever chained. -/
theorem guard_single_redirect (dest : RouteRecord) (store : Option String) :
    ((beforeEach dest store).1 = GuardDecision.allow ∨
     (beforeEach dest store).1 = GuardDecision.redirect "/login" ∨
     (beforeEach dest store).1 = GuardDecision.redirect "/dashboard") ∧
    (∀ tgt, (beforeEach dest store).1 = GuardDecision.redirect tgt →
      ∃ r, findRoute tgt = some r ∧
        beforeEach r (beforeEach dest store).2 =
          (GuardDecision.allow, (beforeEach dest store).2)) := by
  rcases beforeEach_cases dest store with ⟨_, _, h⟩ | ⟨hv, h⟩ | h
  · rw [h]
    refine ⟨Or.inr (Or.inl rfl), ?_⟩
    intro tgt htgt
    obtain rfl : "/login" = tgt := GuardDecision.redirect.inj htgt
    exact ⟨loginRoute, by decide, by decide⟩
  · rw [h]
    refine ⟨Or.inr (Or.inr rfl), ?_⟩
    intro tgt htgt
    obtain rfl : "/dashboard" = tgt := GuardDecision.redirect.inj htgt
    refine ⟨dashboardRoute, by decide, ?_⟩
    simp [beforeEach, hv, dashboardRoute, metaTruthy]
  · rw [h]
    exact ⟨Or.inl rfl, fun tgt htgt => by cases htgt⟩

/-- Witness for C6 at the dashboard route with an empty store: the guard
substitutes the login route, and re-evaluating on the login route allows. -/
theorem guard_single_redirect_witness :
    ∃ r, findRoute "/login" = some r ∧
      beforeEach r (beforeEach dashboardRoute none).2 =
        (GuardDecision.allow, (beforeEach dashboardRoute none).2) :=
  (guard_single_redirect dashboardRoute none).2 "/login" (by decide)

/-- C7: the guard's decision is stable under re-evaluation: evaluating it a
second time, on the token state left by the first evaluation of the same
destination, yields the same decision; and the token store is mutated only
by the explicit clear of the requiresAuth-without-token rule: in every
other branch the store is returned unchanged, and in that rule it becomes
exactly the cleared store. -/
theorem guard_idempotent (dest : RouteRecord) (store : Option String) :
    (beforeEach dest ((beforeEach dest store).2)).1 =
      (beforeEach dest store).1 ∧
    (¬ (metaTruthy dest.meta.requiresAuth = true ∧
        isTokenValid store = false) →
      (beforeEach dest store).2 = store) ∧
    (metaTruthy dest.meta.requiresAuth = true ∧ isTokenValid store = false →
      (beforeEach dest store).2 = none) := by
  rcases beforeEach_cases dest store with ⟨ha, hb, h⟩ | ⟨hv, h⟩ | h
  · have hsnd : (beforeEach dest store).2 = none := by rw [h]
    refine ⟨?_, fun hn => absurd ⟨ha, hb⟩ hn, fun _ => hsnd⟩
    rw [hsnd, h]
    simp [beforeEach, ha, isTokenValid, strTruthy]
  · have hsnd : (beforeEach dest store).2 = store := by rw [h]
    refine ⟨by rw [hsnd], fun _ => hsnd, fun hn => ?_⟩
    rw [hv] at hn
    exact absurd hn.2 (by simp)
  · have hsnd : (beforeEach dest store).2 = store := by rw [h]
    refine ⟨by rw [hsnd], fun _ => hsnd, fun hn => ?_⟩
    have hc : beforeEach dest store = (GuardDecision.redirect "/login", none) := by
      simp [beforeEach, hn.1, hn.2]
    rw [h] at hc
    cases hc

/-- Witness for C7 at the bookings route with a present token: the store is
unchanged by the guard. -/
theorem guard_idempotent_witness :
    (beforeEach bookingsRoute (some "abc123")).2 = some "abc123" :=
  (guard_idempotent bookingsRoute (some "abc123")).2.1 (by decide)

/-- C8: the route table maps exactly the nine declared paths to exactly the
declared auth requirements: the root, login, register and password-reset
paths have a falsy requiresAuth (absent for the first three, declared
false for password-reset), the dashboard, bookings, profile, history and
history-detail paths declare requiresAuth true; and the paths are pairwise
distinct, so every route has exactly one descriptor. -/
theorem route_table_auth_surface :
    routes.map (fun r => (r.path, r.meta.requiresAuth)) =
      [("/", none), ("/login", none), ("/register", none),
       ("/password-reset/:token", some false),
       ("/dashboard", some true), ("/bookings", some true),
       ("/profile", some true), ("/history", some true),
       ("/history/:id", some true)] ∧
    routes.map (fun r => (r.path, metaTruthy r.meta.requiresAuth)) =
      [("/", false), ("/login", false), ("/register", false),
       ("/password-reset/:token", false),
       ("/dashboard", true), ("/bookings", true), ("/profile", true),
       ("/history", true), ("/history/:id", true)] ∧
    (routes.map (fun r => r.path)).Nodup := by
  exact ⟨by decide, by decide, by decide⟩

/-- C2: for every client state, when the rejection handler of the canonical
response interceptor runs with status 401, afterwards the token store is
empty, exactly one full navigation to the login path has been issued if
and only if the current location was not already the login path (and that
navigation targets the login path), and the error is still propagated to
the caller; for every status other than 401 no navigation is issued, the
state is untouched, and the error is still propagated. -/
theorem resp401_global_effects :
    (∀ s : ClientState,
      (canonicalResponseOnError (some 401) s).state.token = none ∧
      ((canonicalResponseOnError (some 401) s).navigations = 1 ↔
        s.location ≠ "/login") ∧
      (s.location ≠ "/login" →
        (canonicalResponseOnError (some 401) s).state.location = "/login") ∧
      (canonicalResponseOnError (some 401) s).rejected = true) ∧
    (∀ (status : Option Nat) (s : ClientState), status ≠ some 401 →
      canonicalResponseOnError status s = ⟨0, true, s⟩) := by
  constructor
  · intro s
    by_cases h : s.location = "/login" <;>
      simp [canonicalResponseOnError, h]
  · intro status s h
    simp [canonicalResponseOnError, h]

/-- Witness for C2: scenario C state (token present, on the dashboard) with
status 401, and the same state with status 500. -/
theorem resp401_global_effects_witness :
    (canonicalResponseOnError (some 401)
      ⟨some "abc123", "/dashboard"⟩).state.token = none ∧
    canonicalResponseOnError (some 500) ⟨some "abc123", "/dashboard"⟩ =
      ⟨0, true, ⟨some "abc123", "/dashboard"⟩⟩ :=
  ⟨(resp401_global_effects.1 ⟨some "abc123", "/dashboard"⟩).1,
   resp401_global_effects.2 (some 500) ⟨some "abc123", "/dashboard"⟩ (by decide)⟩

/-- C3: through the canonical request interceptor, when a truthy token is
stored the request is dispatched with the Authorization header set to the
bearer form of exactly the stored value, and when no token is stored the
request is still dispatched, without an Authorization header; the client
state is untouched in both cases. -/
theorem request_bearer_attachment :
    (∀ (s : ClientState) (t : String), s.token = some t → t ≠ "" →
      canonicalRequestInterceptor s =
        (ReqOutcome.dispatched (some ("Bearer " ++ t)), s)) ∧
    (∀ s : ClientState, s.token = none →
      canonicalRequestInterceptor s = (ReqOutcome.dispatched none, s)) := by
  constructor
  · intro s t h ht
    simp [canonicalRequestInterceptor, h, ht]
  · intro s h
    simp [canonicalRequestInterceptor, h]

/-- Witness for C3 with the stored token of scenario B, and with no token. -/
theorem request_bearer_attachment_witness :
    canonicalRequestInterceptor ⟨some "abc123", "/"⟩ =
      (ReqOutcome.dispatched (some ("Bearer " ++ "abc123")),
        ⟨some "abc123", "/"⟩) ∧
    canonicalRequestInterceptor ⟨none, "/"⟩ =
      (ReqOutcome.dispatched none, ⟨none, "/"⟩) :=
  ⟨request_bearer_attachment.1 ⟨some "abc123", "/"⟩ "abc123" rfl (by decide),
   request_bearer_attachment.2 ⟨none, "/"⟩ rfl⟩

/-- C9: there is a stored token with a dot separator whose second segment is
not valid base64, namely the token a.b: for every payload parser, every
clock value and every client state holding that token, the JWT-decoding
request interceptor of src/api.ts aborts with an uncaught exception thrown
by the decoding step before the request is dispatched, and the client
state is untouched, so in particular the stored token is not cleared. -/
theorem jwt_throws_on_malformed_token (jsonParse : List Nat → JsonExpOutcome)
    (now : Int) (s : ClientState) (h : s.token = some "a.b") :
    jwtRequestInterceptor jsonParse now s = (ReqOutcome.thrown, s) := by
  obtain ⟨tok, loc⟩ := s
  have h' : tok = some "a.b" := h
  subst h'
  rfl

/-- Witness for C9 at a concrete parser, clock and state. -/
theorem jwt_throws_on_malformed_token_witness :
    jwtRequestInterceptor (fun _ => JsonExpOutcome.thrown) 0
      ⟨some "a.b", "/dashboard"⟩ =
      (ReqOutcome.thrown, ⟨some "a.b", "/dashboard"⟩) :=
  jwt_throws_on_malformed_token (fun _ => JsonExpOutcome.thrown) 0
    ⟨some "a.b", "/dashboard"⟩ rfl

/-- C10: a stored empty-string token is treated as an absent session by both
core components: isTokenValid is false, the guard redirects every
destination declaring requiresAuth = true to the login path and removes
the token key, and both request interceptor variants dispatch the request
without an Authorization header. -/
theorem empty_string_token_absent :
    isTokenValid (some "") = false ∧
    (∀ dest : RouteRecord, dest.meta.requiresAuth = some true →
      beforeEach dest (some "") = (GuardDecision.redirect "/login", none)) ∧
    (∀ loc, canonicalRequestInterceptor ⟨some "", loc⟩ =
      (ReqOutcome.dispatched none, ⟨some "", loc⟩)) ∧
    (∀ (jsonParse : List Nat → JsonExpOutcome) (now : Int) (loc : String),
      jwtRequestInterceptor jsonParse now ⟨some "", loc⟩ =
        (ReqOutcome.dispatched none, ⟨some "", loc⟩)) := by
  refine ⟨rfl, ?_, fun loc => rfl, fun jsonParse now loc => rfl⟩
  intro dest h
  simp [beforeEach, isTokenValid, strTruthy, metaTruthy, h]

/-- Witness for C10 at the history route. -/
theorem empty_string_token_absent_witness :
    beforeEach historyRoute (some "") = (GuardDecision.redirect "/login", none) :=
  empty_string_token_absent.2.1 historyRoute (by decide)
